import Mathlib

/-!
Verification of the GPU batch-processing pipeline (`gpu_script.py`,
`pipeline_functions.py`) against its natural-language specification.

The Python source is shallowly embedded: pure parsing/aggregation code is
translated directly into executable Lean functions over `String`/`List`;
external effects (subprocess invocations, file reads, clocks) are passed in
as explicit inputs (`Option` values model raised exceptions / failed
probes); Python `float` arithmetic is modelled with `ℚ` (all values the
theorems compare are exactly representable); Python dictionaries of metrics
are modelled as `String → Option ℚ`.
-/

/-! ## Python string primitives (semantics of str.strip/split/startswith, in, int(), float()) -/

/-- Characters treated as whitespace by Python `str.strip`/`str.split` and by the regex class `\s` (ASCII range). -/
def isPySpace (c : Char) : Bool :=
  c = ' ' || c = '\t' || c = '\n' || c = '\r' || c = '\x0b' || c = '\x0c'

/-- Digit-or-dot class, the regex character class `[\d.]`. -/
def isDigitDot (c : Char) : Bool := c.isDigit || c = '.'

/-- Python `str.strip()`: remove leading and trailing whitespace. -/
def pyStrip (s : String) : String :=
  ⟨((s.data.dropWhile isPySpace).reverse.dropWhile isPySpace).reverse⟩

/-- Worker for `pySplit`: split on runs of whitespace, dropping empty fields. -/
def pySplitGo : List Char → List Char → List (List Char)
  | [], acc => if acc.isEmpty then [] else [acc.reverse]
  | c :: cs, acc =>
    if isPySpace c then
      if acc.isEmpty then pySplitGo cs [] else acc.reverse :: pySplitGo cs []
    else pySplitGo cs (c :: acc)

/-- Python `str.split()` with no argument: split on whitespace runs, no empty fields. -/
def pySplit (s : String) : List String := (pySplitGo s.data []).map (fun l => ⟨l⟩)

/-- Worker for separator splits: split at every occurrence of `sep`. -/
def splitOnCharGo (sep : Char) : List Char → List Char → List String
  | [], acc => [⟨acc.reverse⟩]
  | c :: cs, acc =>
    if c = sep then ⟨acc.reverse⟩ :: splitOnCharGo sep cs []
    else splitOnCharGo sep cs (c :: acc)

/-- Split on every occurrence of a one-character separator, keeping empty
fields, as Python `s.split(sep)`. -/
def splitOnChar (sep : Char) (s : String) : List String := splitOnCharGo sep s.data []

/-- Python `str.splitlines()` as used on tool output (newline-separated text). -/
def pyLines (s : String) : List String := splitOnChar '\n' s

/-- Python `s.endswith(suffix)`. -/
def pyEndsWith (suffix s : String) : Bool := suffix.data.isSuffixOf s.data

/-- Substring test over character lists: does `p` occur inside `s`? -/
def containsSubChars (p : List Char) : List Char → Bool
  | [] => p.isEmpty
  | c :: t => p.isPrefixOf (c :: t) || containsSubChars p t

/-- Python `pat in s` substring membership. -/
def containsSub (pat s : String) : Bool := containsSubChars pat.data s.data

/-- Python `s.startswith(pat)`. -/
def pyStartsWith (pat s : String) : Bool := pat.data.isPrefixOf s.data

/-- Value of a string of decimal digit characters. -/
def digitsToNat (cs : List Char) : ℕ :=
  cs.foldl (fun n c => n * 10 + (c.toNat - 48)) 0

/-- Python `int(tok)` on a whitespace-free token: optional sign then decimal
digits; any other shape raises (modelled as `none`). -/
def pyInt? (s : String) : Option ℤ :=
  match s.data with
  | '-' :: rest =>
    if rest ≠ [] ∧ rest.all Char.isDigit then some (-(digitsToNat rest : ℤ)) else none
  | '+' :: rest =>
    if rest ≠ [] ∧ rest.all Char.isDigit then some ((digitsToNat rest : ℤ)) else none
  | cs => if cs ≠ [] ∧ cs.all Char.isDigit then some ((digitsToNat cs : ℤ)) else none

/-- Mantissa of a decimal literal: digit characters with at most one dot and
at least one digit. Returns the exact rational value, `none` when Python
`float()` would raise. (Exponent notation is not produced by any of the
tools whose output is parsed here, so a plain decimal grammar suffices.) -/
def decMantissa? (cs : List Char) : Option ℚ :=
  if cs.all isDigitDot then
    match cs.count '.' with
    | 0 => if cs.isEmpty then none else some ((digitsToNat cs : ℚ))
    | 1 =>
      let intPart := cs.takeWhile (fun c => c ≠ '.')
      let fracPart := (cs.dropWhile (fun c => c ≠ '.')).tail
      if intPart.isEmpty ∧ fracPart.isEmpty then none
      else some ((digitsToNat intPart : ℚ) + (digitsToNat fracPart : ℚ) / (10 : ℚ) ^ fracPart.length)
    | _ => none
  else none

/-- Python `float(tok)` on a whitespace-free token, decimal grammar with optional sign. -/
def pyFloatChars? (cs : List Char) : Option ℚ :=
  match cs with
  | '-' :: rest => (decMantissa? rest).map (fun q => -q)
  | '+' :: rest => decMantissa? rest
  | _ => decMantissa? cs

/-- Python `float(tok)` on a `String`. -/
def pyFloat? (s : String) : Option ℚ := pyFloatChars? s.data

/-! ## Matching machinery for the fixed regular expressions of `parse_parabricks_output`

Every pattern in the source alternates literal text, the classes `\s`, `\d`,
`[\d.]` (whose character sets are pairwise disjoint from the characters that
follow them in each pattern) and the lazy gaps `.*?`; for such patterns
greedy maximal-munch plus earliest-position lazy scanning computes exactly
the Python `re` match and captures. -/

/-- Match a literal prefix, returning the remaining input. -/
def dropLit : List Char → List Char → Option (List Char)
  | [], rest => some rest
  | _, [] => none
  | p :: ps, c :: cs => if c = p then dropLit ps cs else none

/-- Greedy maximal run of characters in a class: `(consumed, rest)`. -/
def takeCls (p : Char → Bool) : List Char → List Char × List Char
  | [] => ([], [])
  | c :: cs =>
    if p c then
      let r := takeCls p cs
      (c :: r.1, r.2)
    else ([], c :: cs)

/-- One-or-more greedy run of a class (`\s+`, `\d+`, `[\d.]+`). -/
def cls1 (p : Char → Bool) (s : List Char) : Option (List Char × List Char) :=
  let r := takeCls p s
  if r.1.isEmpty then none else some r

/-- Leftmost-match search: try the matcher at every position, as `re.search`. -/
def searchGo (matchAt : List Char → Option α) : List Char → Option α
  | [] => matchAt []
  | c :: t =>
    match matchAt (c :: t) with
    | some x => some x
    | none => searchGo matchAt t

/-- All non-overlapping matches from left to right, as `re.findall`; the fuel
argument bounds the recursion (every successful match of the patterns used
here consumes at least one character). -/
def findallGo (matchAt : List Char → Option (ℕ × List Char)) : ℕ → List Char → List ℕ
  | 0, _ => []
  | fuel + 1, s =>
    match matchAt s with
    | some (v, r) => v :: findallGo matchAt fuel r
    | none =>
      match s with
      | [] => []
      | _ :: t => findallGo matchAt fuel t

/-- Matcher for `Regions-Processed\s+\d+\s+\d+\s+(\d+)\s+\d+` at the current position. -/
def match_rp_at (s : List Char) : Option (ℕ × List Char) := do
  let r ← dropLit "Regions-Processed".data s
  let (_, r) ← cls1 isPySpace r
  let (_, r) ← cls1 Char.isDigit r
  let (_, r) ← cls1 isPySpace r
  let (_, r) ← cls1 Char.isDigit r
  let (_, r) ← cls1 isPySpace r
  let (cap, r) ← cls1 Char.isDigit r
  let (_, r) ← cls1 isPySpace r
  let (_, r) ← cls1 Char.isDigit r
  some (digitsToNat cap, r)

/-- Matcher for `Regions/Minute\s+(\d+)` at the current position. -/
def match_rpm_at (s : List Char) : Option (ℕ × List Char) := do
  let r ← dropLit "Regions/Minute".data s
  let (_, r) ← cls1 isPySpace r
  let (cap, r) ← cls1 Char.isDigit r
  some (digitsToNat cap, r)

/-- `re.search` of the Regions-Processed progress pattern: first occurrence. -/
def search_rp (s : String) : Option ℕ := searchGo (fun t => (match_rp_at t).map Prod.fst) s.data

/-- `re.findall` of the Regions-Processed progress pattern: all occurrences in order. -/
def findall_rp (s : String) : List ℕ := findallGo match_rp_at (s.data.length + 1) s.data

/-- `re.search` of the Regions/Minute pattern: first occurrence. -/
def search_rpm (s : String) : Option ℕ := searchGo (fun t => (match_rpm_at t).map Prod.fst) s.data

/-- `re.findall` of the Regions/Minute pattern: all occurrences in order. -/
def findall_rpm (s : String) : List ℕ := findallGo match_rpm_at (s.data.length + 1) s.data

/-- Matcher for `bwalib run finished in ([\d.]+) seconds`. -/
def match_bwa_at (s : List Char) : Option (List Char) := do
  let r ← dropLit "bwalib run finished in ".data s
  let (cap, r) ← cls1 isDigitDot r
  let _ ← dropLit " seconds".data r
  some cap

/-- Matcher for `Sorting and Marking: ([\d.]+) seconds`. -/
def match_sorting_at (s : List Char) : Option (List Char) := do
  let r ← dropLit "Sorting and Marking: ".data s
  let (cap, r) ← cls1 isDigitDot r
  let _ ← dropLit " seconds".data r
  some cap

/-- Matcher for `BQSR and writing final BAM:\s*([\d.]+) seconds`. -/
def match_bqsr_at (s : List Char) : Option (List Char) := do
  let r ← dropLit "BQSR and writing final BAM:".data s
  let r := (takeCls isPySpace r).2
  let (cap, r) ← cls1 isDigitDot r
  let _ ← dropLit " seconds".data r
  some cap

/-- Matcher for `Time spent reading:\s*([\d.]+)\s*seconds`. -/
def match_time_reading_at (s : List Char) : Option (List Char) := do
  let r ← dropLit "Time spent reading:".data s
  let r := (takeCls isPySpace r).2
  let (cap, r) ← cls1 isDigitDot r
  let r := (takeCls isPySpace r).2
  let _ ← dropLit "seconds".data r
  some cap

/-- Lazy gap `.*?` (without DOTALL, so it may not cross a newline): scan
forward to the earliest position where the continuation matches. -/
def lazyNoNewline (cont : List Char → Option α) : List Char → Option α
  | [] => cont []
  | c :: t =>
    match cont (c :: t) with
    | some x => some x
    | none => if c = '\n' then none else lazyNoNewline cont t

/-- Lazy gap `.*?` under DOTALL: scan forward to the earliest position where
the continuation matches, crossing newlines. -/
def lazyAny (cont : List Char → Option α) : List Char → Option α
  | [] => cont []
  | c :: t =>
    match cont (c :: t) with
    | some x => some x
    | none => lazyAny cont t

/-- Continuation `:\s*([\d.]+)` of the monitoring-time pattern. -/
def monitor_cont (s : List Char) : Option (List Char) := do
  let r ← dropLit ":".data s
  let r := (takeCls isPySpace r).2
  let (cap, _) ← cls1 isDigitDot r
  some cap

/-- Matcher for `Time spent monitoring.*?:\s*([\d.]+)`. -/
def match_monitor_at (s : List Char) : Option (List Char) := do
  let r ← dropLit "Time spent monitoring".data s
  lazyNoNewline monitor_cont r

/-- Continuation `:\s*min rate:\s*([\d.]+)` of the rate-block pattern,
returning the capture and the rest of the input. -/
def rate_min_cont (s : List Char) : Option (List Char × List Char) := do
  let r ← dropLit ":".data s
  let r := (takeCls isPySpace r).2
  let r ← dropLit "min rate:".data r
  let r := (takeCls isPySpace r).2
  cls1 isDigitDot r

/-- Continuation `max rate:\s*([\d.]+)` of the rate-block pattern. -/
def rate_max_cont (s : List Char) : Option (List Char × List Char) := do
  let r ← dropLit "max rate:".data s
  let r := (takeCls isPySpace r).2
  cls1 isDigitDot r

/-- Continuation `avg rate:\s*([\d.]+)` of the rate-block pattern. -/
def rate_avg_cont (s : List Char) : Option (List Char × List Char) := do
  let r ← dropLit "avg rate:".data s
  let r := (takeCls isPySpace r).2
  cls1 isDigitDot r

/-- Matcher for the DOTALL compound pattern
`Rate stats.*?:\s*min rate:\s*([\d.]+).*?max rate:\s*([\d.]+).*?avg rate:\s*([\d.]+)`. -/
def match_rate_at (s : List Char) : Option (List Char × List Char × List Char) := do
  let r ← dropLit "Rate stats".data s
  let (c1, r) ← lazyAny rate_min_cont r
  let (c2, r) ← lazyAny rate_max_cont r
  let (c3, _) ← lazyAny rate_avg_cont r
  some (c1, c2, c3)

/-- `re.search` of a capture-only matcher over a string. -/
def searchCap (matchAt : List Char → Option α) (s : String) : Option α :=
  searchGo matchAt s.data

/-! ## MetricsRecord and the MetricsExtractor (`parse_parabricks_output`) -/

/-- A sparse metrics record: Python dict from metric name to numeric value. -/
abbrev Metrics := String → Option ℚ

/-- The empty metrics dict. -/
def Metrics.empty : Metrics := fun _ => none

/-- Python dict assignment `m[k] = v` (insert or overwrite). -/
def Metrics.insert (m : Metrics) (k : String) (v : ℚ) : Metrics :=
  fun k' => if k' = k then some v else m k'

/-- One extraction rule applied to the metrics dict; `none` models a raised
exception (Python `float()` failing on a matched capture), which aborts the
whole extraction call. -/
abbrev RuleStep := Metrics → Option Metrics

/-- The body of the first rule loop of `parse_parabricks_output`: if the
pattern matched (`res = some conv`), convert the capture with `float` (a
conversion failure raises) and assign the key; otherwise leave the dict
unchanged. -/
def condInsertStep (k : String) (res : Option (Option ℚ)) : RuleStep :=
  fun m =>
    match res with
    | none => some m
    | some none => none
    | some (some v) => some (m.insert k v)

/-- The compound rate-block rule: on a block match assign `min_rate`,
`max_rate`, `avg_rate` from the three captures; no match leaves the dict
unchanged; a `float` failure raises. -/
def rateBlockStep (res : Option (List Char × List Char × List Char)) : RuleStep :=
  fun m =>
    match res with
    | none => some m
    | some (c1, c2, c3) =>
      match pyFloatChars? c1, pyFloatChars? c2, pyFloatChars? c3 with
      | some v1, some v2, some v3 =>
        some (((m.insert "min_rate" v1).insert "max_rate" v2).insert "avg_rate" v3)
      | _, _, _ => none

/-- The trailing fallback of `parse_parabricks_output`: when the key is still
absent, `re.findall` the pattern and keep the last occurrence. -/
def fallbackStep (k : String) (vals : List ℕ) : RuleStep :=
  fun m =>
    if (m k).isSome then some m
    else
      match vals.getLast? with
      | none => some m
      | some v => some (m.insert k ((v : ℚ)))

/-- The ordered extraction steps of `parse_parabricks_output` for a given
stage-output text, in source order: the seven `re.search` rules of the first
loop, the compound rate block, then the two last-occurrence fallbacks. -/
def parabricksSteps (s : String) : List RuleStep :=
  [ condInsertStep "bwa_time" ((searchCap match_bwa_at s).map pyFloatChars?),
    condInsertStep "sorting_time" ((searchCap match_sorting_at s).map pyFloatChars?),
    condInsertStep "bqsr_time" ((searchCap match_bqsr_at s).map pyFloatChars?),
    condInsertStep "time_reading" ((searchCap match_time_reading_at s).map pyFloatChars?),
    condInsertStep "monitor_time" ((searchCap match_monitor_at s).map pyFloatChars?),
    condInsertStep "regions_processed" ((search_rp s).map (fun n => some ((n : ℚ)))),
    condInsertStep "regions_per_minute" ((search_rpm s).map (fun n => some ((n : ℚ)))),
    rateBlockStep (searchCap match_rate_at s),
    fallbackStep "regions_processed" (findall_rp s),
    fallbackStep "regions_per_minute" (findall_rpm s) ]

/-- Run extraction steps in order; a raised exception aborts the call. -/
def runRules : List RuleStep → Metrics → Option Metrics
  | [], m => some m
  | f :: fs, m =>
    match f m with
    | none => none
    | some m' => runRules fs m'

/-- `parse_parabricks_output(output_str)`: apply all rules to an empty dict.
`none` models an uncaught exception escaping the function. -/
def parse_parabricks_output (s : String) : Option Metrics :=
  runRules (parabricksSteps s) Metrics.empty

/-! ## Auxiliary quality-report extraction (`parse_quality_reports`)

Each of the three report files is modelled as `Option (List String)`:
`none` when `open()` raises, otherwise the file's lines. A step returns the
updated dict together with `true`, or the dict as accumulated so far
together with `false` when an exception was raised inside it; the single
`except` of the source stops the sequence at the first failure and returns
whatever was accumulated. -/

/-- Scan of `insert_size.txt`: on every line containing `MEAN_INSERT_SIZE`
that is not the last line, assign `float(lines[i+1].split()[0])`; an empty
split (IndexError) or a bad float (ValueError) raises. -/
def insert_size_go : List String → Metrics → Metrics × Bool
  | [], m => (m, true)
  | [_], m => (m, true)
  | line :: next :: rest, m =>
    if containsSub "MEAN_INSERT_SIZE" line then
      match pySplit next with
      | [] => (m, false)
      | tok :: _ =>
        match pyFloat? tok with
        | none => (m, false)
        | some v => insert_size_go (next :: rest) (m.insert "mean_insert_size" v)
    else insert_size_go (next :: rest) m

/-- Scan of `gcbias_summary.txt`: on every line starting with `All Reads`,
assign `float(parts[8])`; fewer than nine tokens or a bad float raises. -/
def gcbias_go : List String → Metrics → Metrics × Bool
  | [], m => (m, true)
  | line :: rest, m =>
    if pyStartsWith "All Reads" line then
      match (pySplit line).get? 8 with
      | none => (m, false)
      | some tok =>
        match pyFloat? tok with
        | none => (m, false)
        | some v => gcbias_go rest (m.insert "gc_bias" v)
    else gcbias_go rest m

/-- Python `tok.replace('.', '').isdigit()`. -/
def dotStrippedIsDigit (tok : String) : Bool :=
  let u := tok.data.filter (fun c => c ≠ '.')
  ¬ u.isEmpty ∧ u.all Char.isDigit

/-- Scan of `mean_quality_by_cycle.txt`: skip blank and `#` lines, skip the
first remaining line (header), then collect `float(parts[1])` of every line
whose second token looks numeric after removing dots; `float` can still
raise there (more than one dot), modelled as `none`. -/
def mean_quality_go : List String → Bool → List ℚ → Option (List ℚ)
  | [], _, acc => some acc
  | line :: rest, headerPassed, acc =>
    if pyStrip line ≠ "" ∧ ¬ pyStartsWith "#" line then
      if ¬ headerPassed then mean_quality_go rest true acc
      else
        match (pySplit line).get? 1 with
        | some tok =>
          if dotStrippedIsDigit tok then
            match pyFloat? tok with
            | none => none
            | some v => mean_quality_go rest true (acc ++ [v])
          else mean_quality_go rest true acc
        | none => mean_quality_go rest true acc
    else mean_quality_go rest headerPassed acc

/-- First quality step: read and scan `insert_size.txt`. -/
def qstep1 (fo : Option (List String)) : Metrics → Metrics × Bool :=
  fun m =>
    match fo with
    | none => (m, false)
    | some lines => insert_size_go lines m

/-- Second quality step: read and scan `gcbias_summary.txt`. -/
def qstep2 (fo : Option (List String)) : Metrics → Metrics × Bool :=
  fun m =>
    match fo with
    | none => (m, false)
    | some lines => gcbias_go lines m

/-- Third quality step: read `mean_quality_by_cycle.txt`, collect the
per-cycle qualities and assign their unweighted mean (`0` when no numeric
rows were collected). -/
def qstep3 (fo : Option (List String)) : Metrics → Metrics × Bool :=
  fun m =>
    match fo with
    | none => (m, false)
    | some lines =>
      match mean_quality_go lines false [] with
      | none => (m, false)
      | some qs =>
        (m.insert "mean_quality" (if qs.isEmpty then 0 else qs.sum / (qs.length : ℚ)), true)

/-- The three file-reading steps of `parse_quality_reports`, in source order. -/
def qualitySteps (f1 f2 f3 : Option (List String)) : List (Metrics → Metrics × Bool) :=
  [qstep1 f1, qstep2 f2, qstep3 f3]

/-- Run quality steps until the first raised exception; the flag records
whether all steps completed. -/
def runQ : List (Metrics → Metrics × Bool) → Metrics → Metrics × Bool
  | [], m => (m, true)
  | f :: fs, m =>
    match f m with
    | (m', true) => runQ fs m'
    | (m', false) => (m', false)

/-- `parse_quality_reports`: the metrics accumulated when the function
returns (the `except` clause logs and returns whatever was collected). -/
def parse_quality_reports (f1 f2 f3 : Option (List String)) : Metrics :=
  (runQ (qualitySteps f1 f2 f3) Metrics.empty).1

/-! ## StageRunner (`run_parabricks_fq2bam`, `run_parabricks_haplotypecaller`)

The external invocation is modelled by its outcome: `Except.ok full_output`
for a zero exit (with `full_output` the captured stdout concatenated with
the side-channel log file, as built in the source), `Except.error stderr`
for a `CalledProcessError`. -/

/-- `run_parabricks_fq2bam`: returns the output text and the success flag;
a non-zero exit returns `(e.stderr, False)`. -/
def run_parabricks_fq2bam : Except String String → String × Bool
  | Except.ok fullOutput => (fullOutput, true)
  | Except.error stderr => (stderr, false)

/-- `run_parabricks_haplotypecaller`: same result contract as fq2bam. -/
def run_parabricks_haplotypecaller : Except String String → String × Bool
  | Except.ok fullOutput => (fullOutput, true)
  | Except.error stderr => (stderr, false)

/-! ## ResourceMonitor (`get_gpu_usage_monitor`) -/

/-- Parse one line of `nvidia-smi` CSV output: `util, mem = map(int, line.split(','))`
requires exactly two integer fields (Python `int` tolerates surrounding
whitespace). -/
def parse_gpu_line (line : String) : Option (ℤ × ℤ) :=
  match splitOnChar ',' line with
  | [a, b] =>
    match pyInt? (pyStrip a), pyInt? (pyStrip b) with
    | some u, some v => some (u, v)
    | _, _ => none
  | _ => none

/-- Parse one whole probe output (`result.stdout.strip().splitlines()`);
any malformed line raises, failing the tick. -/
def monitor_tick (out : String) : Option (List (ℤ × ℤ)) :=
  (pyLines (pyStrip out)).mapM parse_gpu_line

/-- The sampling loop of `get_gpu_usage_monitor` over the finite list of
probe results observed during the fixed window (`none` = the probe itself
raised). Any failed or malformed tick aborts the whole run with
`(None, None)`. -/
def monitor_go : List (Option String) → ℤ → ℤ → Option ℤ × Option ℤ
  | [], pu, pm => (some pu, some pm)
  | none :: _, _, _ => (none, none)
  | some out :: rest, pu, pm =>
    match monitor_tick out with
    | none => (none, none)
    | some readings =>
      monitor_go rest
        (readings.foldl (fun a r => max a r.1) pu)
        (readings.foldl (fun a r => max a r.2) pm)

/-- `get_gpu_usage_monitor(duration)`: peaks start at zero; the ticks are the
probe invocations that fit in the wall-clock window. -/
def get_gpu_usage_monitor (ticks : List (Option String)) : Option ℤ × Option ℤ :=
  monitor_go ticks 0 0

/-! ## Read/alignment/variant counters (`count_reads`, `count_aligned_reads`, `count_variants`) -/

/-- `count_reads`: the line count of the decompressed FASTQ divided by four;
`none` models the `except` path. -/
def count_reads (numLines : Option ℕ) : Option ℕ := numLines.map (fun n => n / 4)

/-- The flagstat parsing loop: the first token of every line containing
`in total` (resp. `properly paired`) is parsed with `int`, the last such
line winning; a missing or non-integer token raises (`none`). -/
def flagstatScan : List String → Option ℤ × Option ℤ → Option (Option ℤ × Option ℤ)
  | [], acc => some acc
  | line :: rest, acc => do
    let acc1 ←
      if containsSub "in total" line then
        match (pySplit line).head? with
        | none => none
        | some tok => (pyInt? tok).map (fun v => (some v, acc.2))
      else some acc
    let acc2 ←
      if containsSub "properly paired" line then
        match (pySplit line).head? with
        | none => none
        | some tok => (pyInt? tok).map (fun v => (acc1.1, some v))
      else some acc1
    flagstatScan rest acc2

/-- `count_aligned_reads(bam_file)`: `stdoutOpt` is the `samtools flagstat`
output (`none` when the subprocess raised). The final guard is Python
truthiness — `if total_reads and properly_paired:` — so a parsed count of
`0` falls through to the error branch `(None, None)` exactly like a failed
parse. -/
def count_aligned_reads (stdoutOpt : Option String) : Option ℤ × Option ℤ :=
  match stdoutOpt with
  | none => (none, none)
  | some out =>
    match flagstatScan (pyLines out) (none, none) with
    | none => (none, none)
    | some (t, p) =>
      match t, p with
      | some tv, some pv => if tv ≠ 0 ∧ pv ≠ 0 then (some tv, some pv) else (none, none)
      | _, _ => (none, none)

/-- Text after the first occurrence of `pat`, as Python `s.split(pat)[1]`
up to the next occurrence (only the leading part is consumed by the source,
so taking the whole remainder is equivalent: `strip().split()[0]` only looks
at the first following token). `none` when `pat` does not occur. -/
def afterSub (pat : List Char) : List Char → Option (List Char)
  | [] => if pat.isEmpty then some [] else none
  | c :: t =>
    if pat.isPrefixOf (c :: t) then some ((c :: t).drop pat.length)
    else afterSub pat t

/-- `count_variants(vcf_file)`: scan `bcftools stats` output for the first
line containing `number of records:` and return the integer after the label;
any exception (including a parse failure) yields `None`. -/
def count_variants (stdoutOpt : Option String) : Option ℤ :=
  stdoutOpt.bind fun out =>
    ((pyLines out).find? (fun line => containsSub "number of records:" line)).bind fun line =>
      (afterSub "number of records:".data line.data).bind fun rest =>
        ((pySplit (pyStrip ⟨rest⟩)).head?).bind pyInt?

/-! ## Disk I/O probe (`get_disk_io`) -/

/-- The iostat parsing loop: lines after the third, skipping blank lines and
`Device` headers; columns 2 and 3 are KB/s figures converted to MB/s; a
missing column or bad float raises. -/
def disk_go : List String → ℚ → ℚ → Option (ℚ × ℚ)
  | [], pr, pw => some (pr, pw)
  | line :: rest, pr, pw =>
    if pyStrip line ≠ "" ∧ ¬ pyStartsWith "Device" line then
      match (pySplit line).get? 2, (pySplit line).get? 3 with
      | some a, some b =>
        match pyFloat? a, pyFloat? b with
        | some ra, some wa => disk_go rest (max pr (ra / 1024)) (max pw (wa / 1024))
        | _, _ => none
      | _, _ => none
    else disk_go rest pr pw

/-- `get_disk_io(sample_id)`: `none` input models a missing `iostat` binary
or a failed subprocess; an in-loop exception degrades to `(None, None)`. -/
def get_disk_io (stdoutOpt : Option String) : Option ℚ × Option ℚ :=
  match stdoutOpt with
  | none => (none, none)
  | some out =>
    match disk_go ((pyLines (pyStrip out)).drop 3) 0 0 with
    | none => (none, none)
    | some (a, b) => (some a, some b)

/-! ## SampleOrchestrator (`process_sample`) -/

/-- One CSV cell of the per-sample metrics row: a number, a string, or
Python `None` (which `csv.writer` serializes as an empty field). -/
inductive Cell where
  | num : ℚ → Cell
  | text : String → Cell
  | pynone : Cell
deriving DecidableEq, Repr

/-- `metrics.get(key, "NA")` as used when assembling the row: the captured
value, or the literal `NA` token when the key is absent. -/
def getNA (m : Metrics) (k : String) : Cell :=
  match m k with
  | some v => Cell.num v
  | none => Cell.text "NA"

/-- A possibly-`None` integer result placed directly in the row. -/
def optIntCell : Option ℤ → Cell
  | some v => Cell.num ((v : ℚ))
  | none => Cell.pynone

/-- A possibly-`None` rational result placed directly in the row. -/
def optRatCell : Option ℚ → Cell
  | some v => Cell.num v
  | none => Cell.pynone

/-- Textual form of a cell as written by Python `csv.writer`: strings are
written verbatim (no quoting is needed for any token the script produces),
`None` becomes the empty field. The textual form of numeric cells is
abstracted (Python float formatting); no theorem compares it. -/
def csvField : Cell → String
  | Cell.text s => s
  | Cell.pynone => ""
  | Cell.num v => toString v

/-- The alignment-rate derivation of `process_sample` (line 222):
`(properly_paired / total) * 100 if total > 0 else 0`, Python `/` being
exact on these operands in every compared case. -/
def alignment_rate (total properly_paired : ℤ) : ℚ :=
  if total > 0 then ((properly_paired : ℚ) / (total : ℚ)) * 100 else 0

/-- All externally-observed inputs of one `process_sample` call. Fields are
the outcomes of the environment checks, subprocess invocations, probes and
file reads the function performs, in source order. -/
structure Env where
  condaOk : Bool
  fastq1Exists : Bool
  fastq2Exists : Bool
  fastqLineCount : Option ℕ
  fq2bamOutcome : Except String String
  fq2bamTime : ℚ
  hcOutcome : Except String String
  hcTime : ℚ
  flagstatOut : Option String
  variantsOut : Option String
  cpuUsage : ℚ
  ramUsage : ℚ
  gpuTicks : List (Option String)
  diskOut : Option String
  qualityInsertFile : Option (List String)
  qualityGcFile : Option (List String)
  qualityQualFile : Option (List String)

/-- What one orchestration run did: which stages were invoked and the
metrics row written to the per-sample file (`none` = no file written). -/
structure SampleTrace where
  ranFq2bam : Bool
  ranHC : Bool
  written : Option (List Cell)
deriving DecidableEq, Repr

/-- The 26-cell metrics row written by `process_sample` (lines 241-252),
for a run that reached the write. -/
def buildRow (sample_id : String) (e : Env) (total_reads : ℕ)
    (fq2bam_metrics hc_metrics : Metrics)
    (total_reads_aligned properly_paired_aligned : ℤ) : List Cell :=
  let num_variants := count_variants e.variantsOut
  let gpuPeaks := get_gpu_usage_monitor e.gpuTicks
  let diskPeaks := get_disk_io e.diskOut
  let quality_metrics :=
    parse_quality_reports e.qualityInsertFile e.qualityGcFile e.qualityQualFile
  [ Cell.text sample_id,
    Cell.num ((total_reads : ℚ)),
    Cell.num (((total_reads * 150 : ℕ) : ℚ)),
    Cell.num e.fq2bamTime,
    Cell.num e.hcTime,
    getNA fq2bam_metrics "bwa_time",
    getNA fq2bam_metrics "sorting_time",
    getNA fq2bam_metrics "bqsr_time",
    Cell.num (alignment_rate total_reads_aligned properly_paired_aligned),
    optIntCell num_variants,
    getNA hc_metrics "regions_processed",
    getNA hc_metrics "regions_per_minute",
    Cell.num e.cpuUsage,
    Cell.num e.ramUsage,
    optIntCell gpuPeaks.1,
    optIntCell gpuPeaks.2,
    optRatCell diskPeaks.1,
    optRatCell diskPeaks.2,
    getNA fq2bam_metrics "time_reading",
    getNA fq2bam_metrics "min_rate",
    getNA fq2bam_metrics "max_rate",
    getNA fq2bam_metrics "avg_rate",
    getNA fq2bam_metrics "monitor_time",
    getNA quality_metrics "mean_insert_size",
    getNA quality_metrics "gc_bias",
    getNA quality_metrics "mean_quality" ]

/-- `process_sample(sample_id, ...)`: the per-sample orchestration in source
order — conda check, FASTQ existence check, read count, fq2bam (the GPU
monitor runs concurrently and is joined through its result), fq2bam output
extraction, haplotypecaller, its extraction, flagstat counts, then the
derived metrics and the row write. A `none` from an extraction models the
uncaught exception propagating out of the call. -/
def process_sample (sample_id : String) (e : Env) : SampleTrace :=
  if ¬ e.condaOk then ⟨false, false, none⟩
  else if ¬ (e.fastq1Exists && e.fastq2Exists) then ⟨false, false, none⟩
  else
    match count_reads e.fastqLineCount with
    | none => ⟨false, false, none⟩
    | some total_reads =>
      if ¬ (run_parabricks_fq2bam e.fq2bamOutcome).2 then ⟨true, false, none⟩
      else
        match parse_parabricks_output (run_parabricks_fq2bam e.fq2bamOutcome).1 with
        | none => ⟨true, false, none⟩
        | some fq2bam_metrics =>
          if ¬ (run_parabricks_haplotypecaller e.hcOutcome).2 then ⟨true, true, none⟩
          else
            match parse_parabricks_output (run_parabricks_haplotypecaller e.hcOutcome).1 with
            | none => ⟨true, true, none⟩
            | some hc_metrics =>
              match count_aligned_reads e.flagstatOut with
              | (some total_reads_aligned, some properly_paired_aligned) =>
                ⟨true, true,
                  some (buildRow sample_id e total_reads fq2bam_metrics hc_metrics
                    total_reads_aligned properly_paired_aligned)⟩
              | _ => ⟨true, true, none⟩

/-! ## BatchScheduler (`process_samples`)

The worker pool is modelled by its observable dispatch behaviour: every
parsed sample is submitted exactly once and each future's exception is
caught and logged at the `as_completed` loop, independent of the other
samples' outcomes. -/

/-- The manifest parse of `process_samples`: strip every line, drop blanks. -/
def parseSamples (content : String) : List String :=
  ((pyLines content).map pyStrip).filter (fun l => l ≠ "")

/-- The per-future handling of the `as_completed` loop: a normal result
contributes nothing, an escaping exception is caught and logged. -/
def futureOutcome : Except String Unit → Option String
  | Except.ok _ => none
  | Except.error e => some e

/-- `process_samples(sample_file, ...)`: dispatch every parsed sample to
`process_sample` once, recording for each the caught exception if any. -/
def process_samples (content : String) (run : String → Except String Unit) :
    List (String × Option String) :=
  (parseSamples content).map (fun s => (s, futureOutcome (run s)))

/-! ## Aggregator (`merge_metrics`) -/

/-- The merge loop of `merge_metrics`: the first non-empty per-sample file
contributes its header row; every file contributes its data rows verbatim. -/
def merge_go : List (List (List String)) → Bool → List (List String) → List (List String)
  | [], _, acc => acc
  | rows :: rest, headerWritten, acc =>
    match rows with
    | [] => merge_go rest headerWritten acc
    | hdr :: dataRows =>
      if headerWritten then merge_go rest headerWritten (acc ++ dataRows)
      else merge_go rest true (acc ++ [hdr] ++ dataRows)

/-- `merge_metrics`: each input is a directory entry (file name, parsed CSV
rows); only names ending in `_metrics.csv` are merged. -/
def merge_metrics (entries : List (String × List (List String))) : List (List String) :=
  merge_go ((entries.filter (fun f => pyEndsWith "_metrics.csv" f.1)).map Prod.snd) false []

/-! ## Specification form of the merge (for the refinement comparison of the Aggregator) -/

/-- The header row contributed by the first non-empty per-sample file, as a
zero-or-one-element list. This is the specification-side description of the
merge result, to be compared with `merge_metrics`. -/
def merged_header (files : List (List (List String))) : List (List String) :=
  match files.find? (fun rows => ¬ rows.isEmpty) with
  | none => []
  | some rows => rows.take 1

/-! ## Concrete fixtures used by witnesses and counterexamples -/

/-- Stage-output text with two occurrences of the Regions-Processed progress
counter, values 1000 then 2500. -/
def rpText : String :=
  "Regions-Processed 10 20 1000 30\nRegions-Processed 11 21 2500 31"

/-- An environment in which every stage and probe needed to reach the row
write succeeds: flagstat reports 200 total / 180 properly paired; the
variant count, disk and quality probes fail (their fields stay uncaptured). -/
def baseEnv : Env :=
  { condaOk := true, fastq1Exists := true, fastq2Exists := true,
    fastqLineCount := some 400,
    fq2bamOutcome := Except.ok "", fq2bamTime := 0,
    hcOutcome := Except.ok "", hcTime := 0,
    flagstatOut := some "200 + 0 in total (QC-passed reads + QC-failed reads)\n180 + 0 properly paired (90.00% : N/A)",
    variantsOut := none, cpuUsage := 0, ramUsage := 0,
    gpuTicks := [], diskOut := none,
    qualityInsertFile := none, qualityGcFile := none, qualityQualFile := none }

/-- `baseEnv` with a failing alignment stage. -/
def envC5fail : Env := { baseEnv with fq2bamOutcome := Except.error "fq2bam failed" }

/-- A flagstat output whose total and properly-paired counts are both zero. -/
def c10Flagstat : String :=
  "0 + 0 in total (QC-passed reads + QC-failed reads)\n0 + 0 properly paired (N/A : N/A)"

/-- `baseEnv` with the all-zero flagstat output. -/
def envC10 : Env := { baseEnv with flagstatOut := some c10Flagstat }

/-- Per-sample file with the full column set. -/
def c7FileA : List (List String) := [["Sample", "X", "Y"], ["s1", "1", "2"]]

/-- Per-sample file missing the optional column `Y`. -/
def c7FileB : List (List String) := [["Sample", "X"], ["s2", "3"]]

/-- Another per-sample file with the full column set. -/
def c7FileC : List (List String) := [["Sample", "X", "Y"], ["s3", "4", "5"]]

/-! ## Infrastructure lemmas: presence monotonicity of extraction steps -/

/-- Dict assignment never removes a present key. -/
lemma present_insert (m : Metrics) (k k' : String) (v : ℚ)
    (h : (m k).isSome) : ((m.insert k' v) k).isSome := by
  unfold Metrics.insert
  split <;> simp_all

/-- A rule step preserves key presence on every successful application. -/
def PreservingRule (f : RuleStep) : Prop :=
  ∀ m m' k, f m = some m' → (m k).isSome → (m' k).isSome

lemma condInsertStep_preserving (k : String) (res : Option (Option ℚ)) :
    PreservingRule (condInsertStep k res) := by
  intro m m' k' h hp
  unfold condInsertStep at h
  rcases res with _ | ⟨_ | v⟩ <;> simp_all
  subst h
  exact present_insert _ _ _ _ hp

lemma rateBlockStep_preserving (res : Option (List Char × List Char × List Char)) :
    PreservingRule (rateBlockStep res) := by
  intro m m' k' h hp
  unfold rateBlockStep at h
  rcases res with _ | ⟨c1, c2, c3⟩
  · simp_all
  · rcases h1 : pyFloatChars? c1 with _ | v1 <;> rcases h2 : pyFloatChars? c2 with _ | v2 <;>
      rcases h3 : pyFloatChars? c3 with _ | v3 <;> simp_all
    subst h
    exact present_insert _ _ _ _ (present_insert _ _ _ _ (present_insert _ _ _ _ hp))

lemma fallbackStep_preserving (k : String) (vals : List ℕ) :
    PreservingRule (fallbackStep k vals) := by
  intro m m' k' h hp
  unfold fallbackStep at h
  split at h
  · simp_all
  · rcases hg : vals.getLast? with _ | v <;> rw [hg] at h <;> simp only [Option.some.injEq] at h
    · subst h; exact hp
    · subst h; exact present_insert _ _ _ _ hp

lemma parabricksSteps_preserving (s : String) :
    ∀ f ∈ parabricksSteps s, PreservingRule f := by
  intro f hf
  simp only [parabricksSteps, List.mem_cons, List.not_mem_nil, or_false] at hf
  rcases hf with rfl | rfl | rfl | rfl | rfl | rfl | rfl | rfl | rfl | rfl
  · exact condInsertStep_preserving _ _
  · exact condInsertStep_preserving _ _
  · exact condInsertStep_preserving _ _
  · exact condInsertStep_preserving _ _
  · exact condInsertStep_preserving _ _
  · exact condInsertStep_preserving _ _
  · exact condInsertStep_preserving _ _
  · exact rateBlockStep_preserving _
  · exact fallbackStep_preserving _ _
  · exact fallbackStep_preserving _ _

lemma runRules_append (l1 l2 : List RuleStep) (m : Metrics) :
    runRules (l1 ++ l2) m = (runRules l1 m).bind (fun m' => runRules l2 m') := by
  induction l1 generalizing m with
  | nil => simp [runRules]
  | cons f fs ih =>
    simp only [List.cons_append, runRules]
    rcases f m with _ | m' <;> simp [ih]

lemma runRules_preserve {l : List RuleStep} (hl : ∀ f ∈ l, PreservingRule f) :
    ∀ {m m' : Metrics} {k : String}, runRules l m = some m' → (m k).isSome → (m' k).isSome := by
  induction l with
  | nil => intro m m' k h hp; simp [runRules] at h; subst h; exact hp
  | cons f fs ih =>
    intro m m' k h hp
    simp only [runRules] at h
    rcases hf : f m with _ | m1
    · simp [hf] at h
    · rw [hf] at h
      exact ih (fun g hg => hl g (List.mem_cons_of_mem _ hg)) h
        (hl f (List.mem_cons_self _ _) m m1 k hf hp)

/-- A quality step preserves key presence in the dict it returns, whether or
not it raised. -/
def PreservingQ (f : Metrics → Metrics × Bool) : Prop :=
  ∀ m k, (m k).isSome → (((f m).1) k).isSome

lemma insert_size_go_preserving : ∀ (lines : List String), PreservingQ (insert_size_go lines) := by
  intro lines
  induction lines with
  | nil => intro m k h; simpa [insert_size_go] using h
  | cons line rest ih =>
    intro m k h
    cases rest with
    | nil => simpa [insert_size_go] using h
    | cons next rest2 =>
      rw [insert_size_go]
      split
      · rcases hs : pySplit next with _ | ⟨tok, _⟩ <;> simp only [hs]
        · simpa using h
        · rcases hv : pyFloat? tok with _ | v <;> simp only [hv]
          · simpa using h
          · exact ih _ _ (present_insert _ _ _ _ h)
      · exact ih _ _ h

lemma gcbias_go_preserving : ∀ (lines : List String), PreservingQ (gcbias_go lines) := by
  intro lines
  induction lines with
  | nil => intro m k h; simpa [gcbias_go] using h
  | cons line rest ih =>
    intro m k h
    rw [gcbias_go]
    split
    · rcases hs : (pySplit line).get? 8 with _ | tok <;> simp only [hs]
      · simpa using h
      · rcases hv : pyFloat? tok with _ | v <;> simp only [hv]
        · simpa using h
        · exact ih _ _ (present_insert _ _ _ _ h)
    · exact ih _ _ h

lemma qstep1_preserving (fo : Option (List String)) : PreservingQ (qstep1 fo) := by
  intro m k h
  unfold qstep1
  rcases fo with _ | lines
  · simpa using h
  · exact insert_size_go_preserving lines m k h

lemma qstep2_preserving (fo : Option (List String)) : PreservingQ (qstep2 fo) := by
  intro m k h
  unfold qstep2
  rcases fo with _ | lines
  · simpa using h
  · exact gcbias_go_preserving lines m k h

lemma qstep3_preserving (fo : Option (List String)) : PreservingQ (qstep3 fo) := by
  intro m k h
  unfold qstep3
  rcases fo with _ | lines
  · simpa using h
  · rcases hq : mean_quality_go lines false [] with _ | qs <;> simp only [hq]
    · simpa using h
    · simpa using present_insert _ _ _ _ h

lemma qualitySteps_preserving (f1 f2 f3 : Option (List String)) :
    ∀ f ∈ qualitySteps f1 f2 f3, PreservingQ f := by
  intro f hf
  simp only [qualitySteps, List.mem_cons, List.not_mem_nil, or_false] at hf
  rcases hf with rfl | rfl | rfl
  · exact qstep1_preserving _
  · exact qstep2_preserving _
  · exact qstep3_preserving _

lemma runQ_append (l1 l2 : List (Metrics → Metrics × Bool)) (m : Metrics) :
    runQ (l1 ++ l2) m =
      match runQ l1 m with
      | (m', true) => runQ l2 m'
      | (m', false) => (m', false) := by
  induction l1 generalizing m with
  | nil => simp [runQ]
  | cons f fs ih =>
    simp only [List.cons_append, runQ]
    rcases f m with ⟨m1, _ | _⟩ <;> simp [ih]

lemma runQ_preserve {l : List (Metrics → Metrics × Bool)} (hl : ∀ f ∈ l, PreservingQ f) :
    ∀ {m : Metrics} {k : String}, (m k).isSome → (((runQ l m).1) k).isSome := by
  induction l with
  | nil => intro m k h; simpa [runQ] using h
  | cons f fs ih =>
    intro m k h
    simp only [runQ]
    rcases hf : f m with ⟨m1, b⟩
    have h1 : (m1 k).isSome := by
      have := hl f (List.mem_cons_self _ _) m k h
      rwa [hf] at this
    rcases b with _ | _
    · simpa using h1
    · simpa using ih (fun g hg => hl g (List.mem_cons_of_mem _ hg)) h1

/-! ## Infrastructure lemmas: control flow of `process_sample` -/

/-- Inversion of a successful write: the row is exactly `buildRow` applied to
the values produced along the success path. -/
lemma written_inv {sid : String} {e : Env} {row : List Cell}
    (h : (process_sample sid e).written = some row) :
    ∃ total fm hm ta pp,
      count_reads e.fastqLineCount = some total ∧
      parse_parabricks_output (run_parabricks_fq2bam e.fq2bamOutcome).1 = some fm ∧
      parse_parabricks_output (run_parabricks_haplotypecaller e.hcOutcome).1 = some hm ∧
      count_aligned_reads e.flagstatOut = (some ta, some pp) ∧
      row = buildRow sid e total fm hm ta pp := by
  unfold process_sample at h
  repeat' split at h
  all_goals simp_all
  exact ⟨_, _, ⟨rfl, rfl⟩, h.symm⟩

/-- The variant-calling stage runs only after the alignment stage succeeded. -/
lemma ranHC_implies_fq2bam_success {sid : String} {e : Env}
    (h : (process_sample sid e).ranHC = true) :
    (run_parabricks_fq2bam e.fq2bamOutcome).2 = true := by
  unfold process_sample at h
  repeat' split at h
  all_goals simp_all

/-- A failed alignment stage yields no variant-calling run and no metrics row. -/
lemma fq2bam_failure_terminal {sid : String} {e : Env}
    (h : (run_parabricks_fq2bam e.fq2bamOutcome).2 = false) :
    (process_sample sid e).ranHC = false ∧ (process_sample sid e).written = none := by
  unfold process_sample
  repeat' split
  all_goals simp_all

/-- If `count_aligned_reads` failed (first component `None`), no row is written. -/
lemma count_failed_no_write {sid : String} {e : Env}
    (h : (count_aligned_reads e.flagstatOut).1 = none) :
    (process_sample sid e).written = none := by
  unfold process_sample
  repeat' split
  all_goals simp_all

/-- Whether the row gets written does not depend on the quality-report files:
a quality extraction failure never aborts the sample. -/
lemma written_quality_independent (sid : String) (e : Env)
    (f1 f2 f3 : Option (List String)) :
    (process_sample sid
        { e with qualityInsertFile := f1, qualityGcFile := f2, qualityQualFile := f3 }).written.isSome
      = (process_sample sid e).written.isSome := by
  obtain ⟨c, a1, a2, lc, fo, ft, ho, ht, fs, vo, cu, ru, gt, dk, q1, q2, q3⟩ := e
  simp only [process_sample]
  repeat' split
  all_goals simp_all

/-! ## Infrastructure lemmas: monitor and merge -/

/-- A failed tick anywhere in the sampling window makes the whole monitoring
run return `(None, None)`, whatever peaks had been accumulated. -/
lemma monitor_go_failure :
    ∀ (ticks : List (Option String)) (i : ℕ) (pu pm : ℤ),
      ticks.get? i = some none → monitor_go ticks pu pm = (none, none) := by
  intro ticks
  induction ticks with
  | nil => intro i pu pm h; simp at h
  | cons t rest ih =>
    intro i pu pm h
    cases i with
    | zero =>
      simp only [List.get?_cons_zero, Option.some.injEq] at h
      subst h
      rfl
    | succ j =>
      simp only [List.get?_cons_succ] at h
      cases t with
      | none => rfl
      | some out =>
        rw [monitor_go]
        rcases hm : monitor_tick out with _ | readings
        · rfl
        · exact ih j _ _ h

/-- Once the header has been written, the merge loop appends every remaining
file's data rows verbatim. -/
lemma merge_go_true (files : List (List (List String))) :
    ∀ acc, merge_go files true acc = acc ++ (files.map List.tail).flatten := by
  induction files with
  | nil => intro acc; simp [merge_go]
  | cons rows rest ih =>
    intro acc
    cases rows with
    | nil => simp [merge_go, ih]
    | cons hdr dataRows => simp [merge_go, ih]

/-- Full characterization of the merge loop from the initial state: the first
non-empty file's header followed by every file's data rows verbatim. -/
lemma merge_go_false (files : List (List (List String))) :
    ∀ acc, merge_go files false acc = acc ++ merged_header files ++ (files.map List.tail).flatten := by
  induction files with
  | nil => intro acc; simp [merge_go, merged_header]
  | cons rows rest ih =>
    intro acc
    cases rows with
    | nil =>
      rw [merge_go, ih]
      simp [merged_header, List.find?]
    | cons hdr dataRows =>
      simp [merge_go, merge_go_true, merged_header, List.find?, List.append_assoc]

/-- Cells built by `getNA` are never the text `not available`. -/
lemma getNA_ne_navail (m : Metrics) (k : String) : getNA m k ≠ Cell.text "not available" := by
  unfold getNA
  rcases m k with _ | v <;> simp

/-- Cells built from optional integers are never text cells. -/
lemma optIntCell_ne_text (o : Option ℤ) (s : String) : optIntCell o ≠ Cell.text s := by
  rcases o with _ | v <;> simp [optIntCell]

/-- Cells built from optional rationals are never text cells. -/
lemma optRatCell_ne_text (o : Option ℚ) (s : String) : optRatCell o ≠ Cell.text s := by
  rcases o with _ | v <;> simp [optRatCell]

/-! ## Claim theorems -/

/-- **C1** (code bug in the source). The claim says that when an
accumulating-rule pattern occurs more than once, `parse_parabricks_output`
retains the **last** occurrence — in particular 2500 for a text with values
1000 then 2500. The code instead retains the **first** occurrence: the first
rule loop applies `re.search` to the same pattern, so the key is already set
and the last-occurrence fallback (lines 137-144) is dead code. On the
two-occurrence text the extracted value is 1000, although the occurrence
list is `[1000, 2500]` whose last element is 2500. -/
theorem c1_first_occurrence_retained :
    (parse_parabricks_output rpText).map (fun m => m "regions_processed") = some (some (1000 : ℚ))
    ∧ findall_rp rpText = [1000, 2500]
    ∧ ((1000 : ℚ) ≠ (2500 : ℚ)) := by
  refine ⟨by decide, by decide, by decide⟩

/-- **C2.** The derived alignment rate equals properly-paired divided by
total-aligned-reads times 100; when total-aligned-reads is 0 it is the
number 0, not the absent sentinel; for 200 total and 180 properly paired it
is 90.0; and the value placed in column 8 of the written row is exactly this
derivation applied to the counts returned by `count_aligned_reads`. -/
theorem c2_alignment_rate_correct :
    (∀ t p : ℤ, 0 < t → alignment_rate t p = (p : ℚ) / (t : ℚ) * 100)
    ∧ (∀ p : ℤ, alignment_rate 0 p = 0)
    ∧ alignment_rate 200 180 = 90
    ∧ (∀ (sid : String) (e : Env) (t p : ℤ),
        count_aligned_reads e.flagstatOut = (some t, some p) →
        ∀ row, (process_sample sid e).written = some row →
          row.get? 8 = some (Cell.num (alignment_rate t p))) := by
  refine ⟨?_, ?_, ?_, ?_⟩
  · intro t p ht
    unfold alignment_rate
    rw [if_pos ht]
  · intro p
    unfold alignment_rate
    norm_num
  · unfold alignment_rate
    norm_num
  · intro sid e t p hc row hw
    obtain ⟨total, fm, hm, ta, pp, _, _, _, h4, h5⟩ := written_inv hw
    have hEq : (some ta, some pp) = ((some t : Option ℤ), (some p : Option ℤ)) := h4.symm.trans hc
    simp only [Prod.mk.injEq, Option.some.injEq] at hEq
    obtain ⟨rfl, rfl⟩ := hEq
    subst h5
    simp [buildRow]

/-- Witness for C2 at a concrete environment: flagstat reports 200/180, the
row is written, and its ninth cell (index 8) carries the derived rate. -/
theorem c2_alignment_rate_correct_witness :
    count_aligned_reads baseEnv.flagstatOut = (some 200, some 180)
    ∧ (process_sample "s1" baseEnv).written.map (fun row => row.get? 8)
        = some (some (Cell.num (alignment_rate 200 180))) := by
  refine ⟨by decide, ?_⟩
  rcases hw : (process_sample "s1" baseEnv).written with _ | row
  · exact absurd hw (by decide)
  · simp only [Option.map_some']
    rw [c2_alignment_rate_correct.2.2.2 "s1" baseEnv 200 180 (by decide) row hw]

/-- **C3.** Monotonic presence: along the rule steps of stage-output
extraction, and along the file steps of quality-report extraction, a key
present after any step prefix is still present in the final record; and row
serialization maps a present key to its numeric value, never to the `NA`
sentinel. (A raised extraction exception discards the record and aborts the
sample, so no record with fewer keys ever materializes.) -/
theorem c3_monotonic_presence :
    (∀ (s : String) (i : ℕ) (k : String),
      Option.map (fun m => (m k).isSome) (runRules ((parabricksSteps s).take i) Metrics.empty)
        = some true →
      (parse_parabricks_output s).elim True (fun m2 => (m2 k).isSome = true))
    ∧ (∀ (f1 f2 f3 : Option (List String)) (i : ℕ) (k : String),
        (((runQ ((qualitySteps f1 f2 f3).take i) Metrics.empty).1) k).isSome = true →
        ((parse_quality_reports f1 f2 f3) k).isSome = true)
    ∧ (∀ (m : Metrics) (k : String) (v : ℚ), m k = some v → getNA m k = Cell.num v) := by
  refine ⟨?_, ?_, ?_⟩
  · intro s i k h
    rw [Option.map_eq_some'] at h
    obtain ⟨m1, hm1, hp1⟩ := h
    have hsplit : parse_parabricks_output s
        = (runRules ((parabricksSteps s).take i) Metrics.empty).bind
            (fun m' => runRules ((parabricksSteps s).drop i) m') := by
      unfold parse_parabricks_output
      conv_lhs => rw [← List.take_append_drop i (parabricksSteps s)]
      rw [runRules_append]
    rw [hm1] at hsplit
    simp only [Option.some_bind] at hsplit
    rcases h2 : runRules ((parabricksSteps s).drop i) m1 with _ | m2
    · rw [hsplit, h2]
      exact trivial
    · rw [hsplit, h2]
      simp only [Option.elim]
      exact runRules_preserve
        (fun f hf => parabricksSteps_preserving s f (List.drop_subset _ _ hf)) h2 hp1
  · intro f1 f2 f3 i k h
    have hsplit : runQ (qualitySteps f1 f2 f3) Metrics.empty
        = match runQ ((qualitySteps f1 f2 f3).take i) Metrics.empty with
          | (m', true) => runQ ((qualitySteps f1 f2 f3).drop i) m'
          | (m', false) => (m', false) := by
      conv_lhs => rw [← List.take_append_drop i (qualitySteps f1 f2 f3)]
      rw [runQ_append]
    unfold parse_quality_reports
    rw [hsplit]
    rcases hq : runQ ((qualitySteps f1 f2 f3).take i) Metrics.empty with ⟨m1, b⟩
    rw [hq] at h
    cases b
    · simpa using h
    · simpa using runQ_preserve
        (fun g hg => qualitySteps_preserving f1 f2 f3 g (List.drop_subset _ _ hg)) h
  · intro m k v h
    unfold getNA
    rw [h]

/-- Witness for C3: after the first rule step on a text containing the bwalib
timing line, `bwa_time` is present; the theorem transports that presence to
the final extraction result. -/
theorem c3_monotonic_presence_witness :
    (parse_parabricks_output "bwalib run finished in 5.0 seconds").elim True
      (fun m2 => (m2 "bwa_time").isSome = true) :=
  c3_monotonic_presence.1 "bwalib run finished in 5.0 seconds" 1 "bwa_time" (by decide)

/-- **C4.** A hardware-probe failure on any sampling tick makes the whole
monitoring call return `(None, None)` — the absent result for both peak
fields — never a partial peak from the ticks that succeeded earlier. -/
theorem c4_probe_failure_no_partial_peaks :
    ∀ (ticks : List (Option String)) (i : ℕ),
      ticks.get? i = some none → get_gpu_usage_monitor ticks = (none, none) := by
  intro ticks i h
  exact monitor_go_failure ticks i 0 0 h

/-- Witness for C4: a probe that succeeds on tick one (peak 50 / 1000) and
fails on tick two yields `(None, None)`, not the tick-one peaks. -/
theorem c4_probe_failure_no_partial_peaks_witness :
    get_gpu_usage_monitor [some "50, 1000", none] = (none, none) :=
  c4_probe_failure_no_partial_peaks [some "50, 1000", none] 1 (by decide)

/-- **C5.** A non-zero exit of the external stage is reported as an
unsuccessful result with the stderr text preserved, and a failed alignment
stage is terminal: within one sample, haplotypecaller runs only after
fq2bam reported success, and a failed fq2bam also prevents the metrics row. -/
theorem c5_stage_failure_terminal :
    (∀ stderr : String, run_parabricks_fq2bam (Except.error stderr) = (stderr, false))
    ∧ (∀ (sid : String) (e : Env) (stderr : String),
        e.fq2bamOutcome = Except.error stderr →
        (process_sample sid e).ranHC = false ∧ (process_sample sid e).written = none)
    ∧ (∀ (sid : String) (e : Env), (process_sample sid e).ranHC = true →
        (run_parabricks_fq2bam e.fq2bamOutcome).2 = true) := by
  refine ⟨fun _ => rfl, ?_, ?_⟩
  · intro sid e stderr he
    apply fq2bam_failure_terminal
    rw [he]
    rfl
  · intro sid e h
    exact ranHC_implies_fq2bam_success h

/-- Witness for C5: the failing stage returns its stderr with `success=false`
and blocks haplotypecaller; in an environment where fq2bam succeeded and
haplotypecaller did run, the theorem recovers the stage-1 success flag. -/
theorem c5_stage_failure_terminal_witness :
    run_parabricks_fq2bam (Except.error "fq2bam failed") = ("fq2bam failed", false)
    ∧ (process_sample "s1" envC5fail).ranHC = false
    ∧ (run_parabricks_fq2bam baseEnv.fq2bamOutcome).2 = true :=
  ⟨c5_stage_failure_terminal.1 "fq2bam failed",
   (c5_stage_failure_terminal.2.1 "s1" envC5fail "fq2bam failed" rfl).1,
   c5_stage_failure_terminal.2.2 "s1" baseEnv (by decide)⟩

/-- **C6.** The batch scheduler dispatches exactly the manifest's non-blank
(stripped) lines, each exactly once and in order, and one sample's escaping
exception is caught and recorded without affecting which samples are
attempted or how any other sample's outcome is handled. -/
theorem c6_batch_dispatch_complete_isolated :
    (∀ (content : String) (run : String → Except String Unit),
      (process_samples content run).map Prod.fst = parseSamples content)
    ∧ (∀ (content : String) (run : String → Except String Unit) (i : ℕ) (s : String),
        (parseSamples content).get? i = some s →
        (process_samples content run).get? i = some (s, futureOutcome (run s))) := by
  constructor
  · intro content run
    unfold process_samples
    rw [List.map_map]
    simp [Function.comp_def]
  · intro content run i s h
    unfold process_samples
    rw [List.get?_map, h]
    rfl

/-- Witness for C6: a manifest with two samples separated by blank and
whitespace-only lines; sample `s1` raises, the exception is caught and
logged, and sample `s2` is still dispatched and succeeds. -/
theorem c6_batch_dispatch_complete_isolated_witness :
    (process_samples "s1\n\n   \ns2\n"
        (fun s => if s = "s1" then Except.error "boom" else Except.ok ())).get? 1
      = some ("s2", none)
    ∧ (process_samples "s1\n\n   \ns2\n"
        (fun s => if s = "s1" then Except.error "boom" else Except.ok ())).map Prod.fst
      = ["s1", "s2"] := by
  constructor
  · exact c6_batch_dispatch_complete_isolated.2 "s1\n\n   \ns2\n"
      (fun s => if s = "s1" then Except.error "boom" else Except.ok ()) 1 "s2" (by decide)
  · rw [c6_batch_dispatch_complete_isolated.1]
    decide

/-- **C7** (corrected). The claim says a record with a different column set
is tolerated with the absent-value sentinel filling the missing column. The
merge does tolerate it — all data rows are kept, nothing raises — but the
short row is carried verbatim: no sentinel is inserted, and the row stays
shorter than the header. -/
theorem c7_no_padding_counterexample :
    merge_metrics [("a_metrics.csv", c7FileA), ("b_metrics.csv", c7FileB), ("c_metrics.csv", c7FileC)]
      = [["Sample", "X", "Y"], ["s1", "1", "2"], ["s2", "3"], ["s3", "4", "5"]]
    ∧ (["s2", "3"] : List String).length ≠ (["Sample", "X", "Y"] : List String).length
    ∧ "NA" ∉ (["s2", "3"] : List String)
    ∧ "not available" ∉ (["s2", "3"] : List String) := by
  refine ⟨by decide, by decide, by decide, by decide⟩

/-- **C7 amended.** For every collection of per-sample files, the merge
never raises (it is total) and produces the first non-empty file's header
followed by every file's data rows carried verbatim — rows with a different
column set are neither padded with a sentinel nor dropped. -/
theorem c7_merge_tolerates_verbatim :
    ∀ entries : List (String × List (List String)),
      merge_metrics entries =
        merged_header ((entries.filter (fun f => pyEndsWith "_metrics.csv" f.1)).map Prod.snd)
        ++ ((((entries.filter (fun f => pyEndsWith "_metrics.csv" f.1)).map Prod.snd).map
              List.tail).flatten) := by
  intro entries
  unfold merge_metrics
  rw [merge_go_false]
  simp

/-- **C8** (corrected). The claim says uncaptured fields serialize as the
literal `not available` token. In the row actually written, uncaptured
extraction-dict fields serialize as the literal `NA` token and uncaptured
probe results (here the variant count at index 9, and the disk fields) are
Python `None`, an empty CSV field; no cell is the text `not available`. -/
theorem c8_sentinel_counterexample :
    (process_sample "s1" baseEnv).written.map (fun row =>
        (row.get? 9, row.get? 5, decide (Cell.text "not available" ∈ row)))
      = some (some Cell.pynone, some (Cell.text "NA"), false)
    ∧ csvField Cell.pynone = ""
    ∧ csvField (Cell.text "NA") = "NA"
    ∧ "NA" ≠ "not available" := by
  refine ⟨by decide, rfl, rfl, by decide⟩

/-- **C8 amended.** Every field absent from an extraction dict serializes
through `metrics.get(key, "NA")` as the literal `NA` token (and a present
field as its numeric value); a `None` probe result serializes as an empty
CSV field; in every written row, no cell after the sample-id column is the
text `not available`, and a failed variant count yields the `None` cell at
index 9. -/
theorem c8_sentinel_serialization :
    (∀ (m : Metrics) (k : String), m k = none → getNA m k = Cell.text "NA")
    ∧ (∀ (m : Metrics) (k : String) (v : ℚ), m k = some v → getNA m k = Cell.num v)
    ∧ csvField (Cell.text "NA") = "NA"
    ∧ csvField Cell.pynone = ""
    ∧ (∀ (sid : String) (e : Env) (row : List Cell),
        (process_sample sid e).written = some row →
        (∀ c ∈ row.tail, c ≠ Cell.text "not available")
        ∧ (count_variants e.variantsOut = none → row.get? 9 = some Cell.pynone)) := by
  refine ⟨?_, ?_, rfl, rfl, ?_⟩
  · intro m k h
    unfold getNA
    rw [h]
  · intro m k v h
    unfold getNA
    rw [h]
  · intro sid e row hw
    obtain ⟨total, fm, hm, ta, pp, _, _, _, _, h5⟩ := written_inv hw
    subst h5
    constructor
    · intro c hc
      simp only [buildRow, List.tail_cons, List.mem_cons, List.not_mem_nil, or_false] at hc
      rcases hc with rfl | rfl | rfl | rfl | rfl | rfl | rfl | rfl | rfl | rfl | rfl | rfl |
        rfl | rfl | rfl | rfl | rfl | rfl | rfl | rfl | rfl | rfl | rfl | rfl | rfl <;>
        first
          | exact getNA_ne_navail _ _
          | exact optIntCell_ne_text _ _
          | exact optRatCell_ne_text _ _
          | simp
    · intro hv
      simp [buildRow, hv, optIntCell]

/-- Witness for C8 amended: an absent key serializes as `NA`, and at the
concrete environment (whose variant-count probe failed) the written row has
the `None` cell at index 9. -/
theorem c8_sentinel_serialization_witness :
    getNA Metrics.empty "bwa_time" = Cell.text "NA"
    ∧ (process_sample "s1" baseEnv).written.map (fun row => row.get? 9)
        = some (some Cell.pynone) := by
  refine ⟨c8_sentinel_serialization.1 Metrics.empty "bwa_time" rfl, ?_⟩
  rcases hw : (process_sample "s1" baseEnv).written with _ | row
  · exact absurd hw (by decide)
  · simp only [Option.map_some']
    rw [(c8_sentinel_serialization.2.2.2.2 "s1" baseEnv row hw).2 (by decide)]

/-- **C9** (corrected). The claim says any read/parse failure during quality
extraction yields an empty contribution with all three keys absent. A
failure that strikes after the first file has been parsed keeps the keys
already extracted: with a valid insert-size file and an unreadable
gcbias file, `mean_insert_size` is present in the contribution. -/
theorem c9_retained_key_counterexample :
    ((parse_quality_reports (some ["MEAN_INSERT_SIZE", "250.5"]) none none)
        "mean_insert_size").isSome = true := by decide

/-- **C9 amended.** A quality-report failure never aborts the sample (the
row-write decision is independent of the three quality files); a failure
leaves the keys of the not-yet-processed files absent — in particular an
unreadable first file yields an empty contribution — and a failure at the
second file keeps exactly the first file's contribution. -/
theorem c9_quality_failure_behavior :
    (∀ f2 f3, parse_quality_reports none f2 f3 = Metrics.empty)
    ∧ (∀ f1 f3, parse_quality_reports f1 none f3 = (qstep1 f1 Metrics.empty).1)
    ∧ (∀ (sid : String) (e : Env) (f1 f2 f3 : Option (List String)),
        (process_sample sid
            { e with qualityInsertFile := f1, qualityGcFile := f2, qualityQualFile := f3 }).written.isSome
          = (process_sample sid e).written.isSome) := by
  refine ⟨fun f2 f3 => rfl, ?_, ?_⟩
  · intro f1 f3
    unfold parse_quality_reports qualitySteps runQ
    rcases h : qstep1 f1 Metrics.empty with ⟨m, b⟩
    cases b <;> simp [h, qstep2, runQ]
  · intro sid e f1 f2 f3
    exact written_quality_independent sid e f1 f2 f3

/-- **C10.** The guard of `count_aligned_reads` tests Python truthiness, so
a parsed total or properly-paired count of 0 produces `(None, None)` exactly
as a failed parse would, and `process_sample` then returns without writing
the per-sample metrics file. -/
theorem c10_zero_counts_no_metrics_row :
    (∀ (out : String) (t p : Option ℤ),
      flagstatScan (pyLines out) (none, none) = some (t, p) →
      t = some 0 ∨ p = some 0 →
      count_aligned_reads (some out) = (none, none))
    ∧ (∀ (sid : String) (e : Env),
        (count_aligned_reads e.flagstatOut).1 = none →
        (process_sample sid e).written = none) := by
  constructor
  · intro out t p hscan hz
    simp only [count_aligned_reads, hscan]
    rcases t with _ | tv <;> rcases p with _ | pv
    · rfl
    · rfl
    · rfl
    · rcases hz with hz | hz <;> simp only [Option.some.injEq] at hz <;> subst hz <;> simp
  · intro sid e h
    exact count_failed_no_write h

/-- Witness for C10: flagstat output reporting 0 total and 0 properly-paired
reads gives `(None, None)`, and the sample writes no metrics row. -/
theorem c10_zero_counts_no_metrics_row_witness :
    count_aligned_reads (some c10Flagstat) = (none, none)
    ∧ (process_sample "s1" envC10).written = none := by
  constructor
  · exact c10_zero_counts_no_metrics_row.1 c10Flagstat (some 0) (some 0) (by decide) (Or.inl rfl)
  · exact c10_zero_counts_no_metrics_row.2 "s1" envC10 (by decide)
